import Mathlib

/-!
# QR Login / attendance system — verification development

Shallow embedding of the attendance session and authentication engine of the
`SecureQRLoginSystem` application (files `database/database.py`,
`core/auth_manager.py`, `core/user_manager.py`, `gui/user_panel.py`), together
with the `authenticate` entry point of the `QR Code Login-02` variant
(`secure_qr_login.py`), and theorems settling the frozen specification claims.

Modelling conventions:
* Calendar dates are day ordinals (`Nat`); `date + 1` is the next day
  (`timedelta(days=1)` in the source).  Times of day are stored as the
  `HH:MM:SS` strings the source stores, produced by `fmtTime` from a
  seconds-of-day counter (`strftime('%H:%M:%S')`) and parsed back by
  `parseTimeHMS` (`strptime(s, '%H:%M:%S')`).
* `hours_worked` is kept in hundredths of an hour (an `Int`): the source
  stores `round(total_seconds/3600, 2)`, which is exact at this granularity;
  rounding is half-to-even as in Python's `round` (the source's float
  representation error on exact ties is not modelled).
* The SQLite ledger tables are lists of records; `UNIQUE(user_id, date)`
  is the invariant proved here.  SQL `UPDATE ... WHERE id = existing.id`
  becomes "update the first record with the matching key", matching the
  row returned by `fetch_one`.  `LIKE 'prefix%'` is modelled as a
  case-sensitive prefix test (SQLite's ASCII case folding is not exercised
  by any claim).
* The password hash check (`security.verify_password`) is an uninterpreted
  parameter `verify`, exactly as `AuthManager` holds its injected
  `security_manager` dependency.
-/

/-- Two-digit zero padding, as in `strftime` field output. -/
def pad2 (n : Nat) : String :=
  if n < 10 then "0" ++ toString n else toString n

/-- `now.strftime('%H:%M:%S')` applied to a seconds-of-day counter. -/
def fmtTime (sec : Nat) : String :=
  pad2 (sec / 3600) ++ ":" ++ pad2 ((sec % 3600) / 60) ++ ":" ++ pad2 (sec % 60)

/-- Split a character list at every `':'` (the `%H:%M:%S` field separator). -/
def splitColon : List Char → List (List Char)
  | [] => [[]]
  | c :: rest =>
    let r := splitColon rest
    if c = ':' then [] :: r
    else
      match r with
      | h :: t => (c :: h) :: t
      | [] => [[c]]

/-- Value of a non-empty all-digit character list. -/
def digitsVal (l : List Char) : Option Nat :=
  if l ≠ [] ∧ l.all (·.isDigit) then
    some (l.foldl (fun a c => a * 10 + (c.toNat - 48)) 0)
  else none

/-- One `strptime` time field: at most two digits. -/
def parseField (l : List Char) : Option Nat :=
  if l.length ≤ 2 then digitsVal l else none

/-- `datetime.strptime(s, '%H:%M:%S')`, reduced to seconds of day; `none`
when the parse raises.  Field ranges follow CPython (`%H` 0–23, `%M` 0–59,
`%S` 0–61). -/
def parseTimeHMS (s : String) : Option Int :=
  match splitColon s.toList with
  | [h, m, sec] =>
    match parseField h, parseField m, parseField sec with
    | some hh, some mm, some ss =>
      if hh ≤ 23 ∧ mm ≤ 59 ∧ ss ≤ 61 then
        some ((hh * 3600 + mm * 60 + ss : Nat) : Int)
      else none
    | _, _, _ => none
  | _ => none

/-- Round `num / den` (for `den > 0`) to the nearest integer, ties to even:
Python's `round`. -/
def roundHalfEven (num den : Int) : Int :=
  if 2 * num.emod den < den then num.ediv den
  else if 2 * num.emod den > den then num.ediv den + 1
  else if num.ediv den % 2 = 0 then num.ediv den else num.ediv den + 1

/-- `round(duration.total_seconds() / 3600, 2)` in hundredths of an hour,
for a duration of `b - a` seconds. -/
def hoursWorkedHundredths (a b : Int) : Int :=
  roundHalfEven ((b - a) * 100) 3600

/-- Codepoint-wise lexicographic `<` on character lists: SQLite's binary
collation for the ASCII data at hand. -/
def charListLtb : List Char → List Char → Bool
  | [], [] => false
  | [], _ :: _ => true
  | _ :: _, [] => false
  | a :: as, b :: bs =>
    if a.toNat < b.toNat then true
    else if b.toNat < a.toNat then false
    else charListLtb as bs

/-- `ORDER BY employee_id` string comparison. -/
def strLt (a b : String) : Bool := charListLtb a.toList b.toList

/-- `employee_id LIKE 'pfx%'` as a prefix test. -/
def strIsPrefixOf (p s : String) : Bool := p.toList.isPrefixOf s.toList

/-- Python truthiness of an optional string (`if login_time:`):
`None` and `''` are falsy. -/
def truthy : Option String → Bool
  | none => false
  | some s => s ≠ ""

/-- Strip leading and trailing whitespace, as `int()` does before parsing. -/
def pyStripWS (l : List Char) : List Char :=
  ((l.dropWhile (·.isWhitespace)).reverse.dropWhile (·.isWhitespace)).reverse

/-- Python `int(s)`: optional sign, then a non-empty digit run; `none` when
the call would raise `ValueError`.  (Underscore digit separators are not
modelled; no identifier in the claims uses them.) -/
def pyIntOfString (s : String) : Option Int :=
  match pyStripWS s.toList with
  | '+' :: rest => (digitsVal rest).map (fun n => (n : Int))
  | '-' :: rest => (digitsVal rest).map (fun n => -(n : Int))
  | rest => (digitsVal rest).map (fun n => (n : Int))

/-- Remove every (leftmost-first, non-overlapping) occurrence of `pat`,
fuel-indexed. -/
def removeAllAux (pat : List Char) : Nat → List Char → List Char
  | 0, l => l
  | _ + 1, [] => []
  | fuel + 1, c :: rest =>
    if pat.isPrefixOf (c :: rest) then
      removeAllAux pat fuel ((c :: rest).drop pat.length)
    else c :: removeAllAux pat fuel rest

/-- Python `s.replace(pat, '')`: delete every occurrence of `pat` in `s`
(identity for the empty pattern, which no caller passes). -/
def pyReplaceEmpty (s pat : String) : String :=
  if pat.toList = [] then s
  else ⟨removeAllAux pat.toList s.toList.length s.toList⟩

/-- Python `f"{n:03d}"`: sign, then digits left-padded with zeros to a total
width of 3. -/
def pyFormat03d (n : Int) : String :=
  let digits := toString n.natAbs
  let width := if n < 0 then 2 else 3
  let padded :=
    if digits.length < width then
      String.mk (List.replicate (width - digits.length) '0') ++ digits
    else digits
  (if n < 0 then "-" else "") ++ padded

/-! ## Data model (`database/database.py`, `create_tables`) -/

/-- A row of the `users` table. -/
structure User where
  id : Nat
  employee_id : String
  name : String
  hashed_password : String
  salt : String
  is_logged_in : Bool
deriving DecidableEq, Repr

/-- A row of the `attendance` table (`UNIQUE(user_id, date)` is the invariant
settled by the claims, not a baked-in assumption). -/
structure AttendanceRecord where
  user_id : Nat
  date : Nat
  login_time : Option String
  logout_time : Option String
  hours_worked : Int
  status : Option String
  notes : Option String
deriving DecidableEq, Repr

/-- A row of the append-only `login_history` table. -/
structure HistEvent where
  user_id : Nat
  action : String
deriving DecidableEq, Repr

/-- A row of the `events` calendar table. -/
structure CalEvent where
  date : Nat
  title : String
  category : String
deriving DecidableEq, Repr

/-- The persistent store: the four tables of `create_tables`. -/
structure SysState where
  users : List User
  history : List HistEvent
  attendance : List AttendanceRecord
  events : List CalEvent
deriving DecidableEq, Repr

/-! ## DatabaseManager operations -/

/-- Key of the `UNIQUE(user_id, date)` constraint. -/
def recKey (r : AttendanceRecord) : Nat × Nat := (r.user_id, r.date)

/-- `SELECT * FROM attendance WHERE user_id = ? AND date = ?` (`fetch_one`:
first matching row). -/
def get_attendance_for_date (st : SysState) (uid date : Nat) : Option AttendanceRecord :=
  st.attendance.find? (fun r => r.user_id == uid && r.date == date)

/-- The column-by-column `UPDATE` built by `upsert_attendance` for an
existing row: a string column is written only when its argument is truthy,
`hours_worked`/`notes` only when their argument is not `None`. -/
def updateRecord (r : AttendanceRecord) (lt lo : Option String) (hrs : Option Int)
    (stt nts : Option String) : AttendanceRecord :=
  { r with
    login_time := if truthy lt then lt else r.login_time
    logout_time := if truthy lo then lo else r.logout_time
    hours_worked := (match hrs with | some h => h | none => r.hours_worked)
    status := if truthy stt then stt else r.status
    notes := (match nts with | some n => some n | none => r.notes) }

/-- Apply `f` to the first record satisfying `p` (SQL
`UPDATE ... WHERE id = existing.id`, where `existing` is the first fetched
match). -/
def updateFirst (p : AttendanceRecord → Bool) (f : AttendanceRecord → AttendanceRecord) :
    List AttendanceRecord → List AttendanceRecord
  | [] => []
  | r :: rs => if p r then f r :: rs else r :: updateFirst p f rs

/-- `DatabaseManager.upsert_attendance`: update the existing `(user_id, date)`
row column-by-column, or insert a fresh one (`hours or 0` on insert). -/
def upsert_attendance (st : SysState) (uid date : Nat) (lt lo : Option String)
    (hrs : Option Int) (stt nts : Option String) : SysState :=
  match get_attendance_for_date st uid date with
  | some _ =>
    let att := updateFirst (fun r => r.user_id == uid && r.date == date)
      (fun r => updateRecord r lt lo hrs stt nts) st.attendance
    { st with attendance := att }
  | none =>
    let fresh : AttendanceRecord :=
      { user_id := uid, date := date, login_time := lt, logout_time := lo,
        hours_worked := hrs.getD 0, status := stt, notes := nts }
    { st with attendance := st.attendance ++ [fresh] }

/-- `DatabaseManager.log_history`: append one event. -/
def log_history (st : SysState) (uid : Nat) (action : String) : SysState :=
  { st with history := st.history ++ [⟨uid, action⟩] }

/-- `DatabaseManager.update_user_login_status`. -/
def update_user_login_status (st : SysState) (uid : Nat) (b : Bool) : SysState :=
  { st with users :=
      st.users.map (fun u => if u.id == uid then { u with is_logged_in := b } else u) }

/-- `DatabaseManager.get_user_by_id`. -/
def get_user_by_id (st : SysState) (uid : Nat) : Option User :=
  st.users.find? (fun u => u.id == uid)

/-- `DatabaseManager.get_user_by_employee_id`. -/
def get_user_by_employee_id (st : SysState) (eid : String) : Option User :=
  st.users.find? (fun u => u.employee_id == eid)

/-- `ORDER BY employee_id DESC LIMIT 1` over a result list: the
lexicographically (binary-collation) greatest element. -/
def maxLex : List String → Option String
  | [] => none
  | s :: rest => some (rest.foldl (fun a b => if strLt a b then b else a) s)

/-- `DatabaseManager.get_next_employee_id_number`: take the greatest
`employee_id LIKE 'pfx%'`, delete the prefix with `str.replace`, parse with
`int`; on `ValueError` fall back to 1; with no matching user return 1. -/
def get_next_employee_id_number (st : SysState) (pfx : String) : Int :=
  let matching := (st.users.map (·.employee_id)).filter (fun e => strIsPrefixOf pfx e)
  match maxLex matching with
  | none => 1
  | some last =>
    match pyIntOfString (pyReplaceEmpty last pfx) with
    | some n => n + 1
    | none => 1

/-- `UserManager.generate_employee_id`: `f"{prefix}{next_num:03d}"`. -/
def generate_employee_id (st : SysState) (pfx : String) : String :=
  pfx ++ pyFormat03d (get_next_employee_id_number st pfx)

/-! ## AuthManager operations (`core/auth_manager.py`)

Each handler takes the current date (day ordinal) and time of day in seconds,
standing for `datetime.now()`; the source formats the time with
`strftime('%H:%M:%S')` before storing it. -/

/-- `AuthManager._perform_login`: flag the user logged in, append one
`login` history event, upsert today's record with `login_time = now` and
`status = 'Present'`. -/
def perform_login (st : SysState) (uid : Nat) (uname : String) (date nowSec : Nat) :
    SysState × String :=
  let currentTime := fmtTime nowSec
  let st1 := update_user_login_status st uid true
  let st2 := log_history st1 uid "login"
  let st3 := upsert_attendance st2 uid date (some currentTime) none none (some "Present") none
  (st3, "Success: " ++ uname ++ " logged in at " ++ currentTime ++ ".")

/-- `AuthManager._perform_logout`: flag the user logged out, append one
history event with the given `action`, read today's record, compute
`round((logout - login).total_seconds() / 3600, 2)` when the stored
`login_time` is truthy and parses (0 otherwise, the `except` branch), and
upsert `logout_time` and the hours. -/
def perform_logout (st : SysState) (uid : Nat) (uname : String) (date nowSec : Nat)
    (action : String) : SysState × String :=
  let currentTime := fmtTime nowSec
  let st1 := update_user_login_status st uid false
  let st2 := log_history st1 uid action
  let record := get_attendance_for_date st2 uid date
  let hours : Int :=
    match record with
    | none => 0
    | some r =>
      match r.login_time with
      | none => 0
      | some lt =>
        if lt = "" then 0
        else
          match parseTimeHMS lt, parseTimeHMS currentTime with
          | some a, some b => hoursWorkedHundredths a b
          | _, _ => 0
  let st3 := upsert_attendance st2 uid date none (some currentTime) (some hours) none none
  (st3, "Success: " ++ uname ++ " logged out at " ++ currentTime ++ ".")

/-- `AuthManager.force_logout`: unknown user is an error; an already
logged-out user gets an informational result and no write; otherwise the
logout path runs with `action = 'force_logout'`. -/
def force_logout (st : SysState) (uid : Nat) (date nowSec : Nat) : SysState × String :=
  match get_user_by_id st uid with
  | none => (st, "Error: User not found.")
  | some u =>
    if !u.is_logged_in then (st, "Info: User is already logged out.")
    else perform_logout st uid u.name date nowSec "force_logout"

/-- `AuthManager.handle_manual_login`; `verify` is the injected
`security_manager.verify_password(hash, salt, password)`. -/
def handle_manual_login (verify : String → String → String → Bool) (st : SysState)
    (eid pwd : String) (date nowSec : Nat) : SysState × String :=
  match get_user_by_employee_id st eid with
  | none => (st, "Error: Employee ID not found.")
  | some u =>
    if verify u.hashed_password u.salt pwd then
      if u.is_logged_in then (st, "Error: User is already logged in.")
      else perform_login st u.id u.name date nowSec
    else (st, "Error: Invalid password.")

/-- `AuthManager.handle_manual_logout`. -/
def handle_manual_logout (verify : String → String → String → Bool) (st : SysState)
    (eid pwd : String) (date nowSec : Nat) : SysState × String :=
  match get_user_by_employee_id st eid with
  | none => (st, "Error: Employee ID not found.")
  | some u =>
    if !(verify u.hashed_password u.salt pwd) then (st, "Error: Invalid password.")
    else if !u.is_logged_in then (st, "Error: User is already logged out.")
    else perform_logout st u.id u.name date nowSec "logout"

/-- `AuthManager.handle_qr_login_toggle`, at the identifier level (the JSON
envelope `{"employee_id": ...}` decode is elided: the decoded employee id is
passed directly). -/
def handle_qr_login_toggle (st : SysState) (eid : String) (date nowSec : Nat) :
    SysState × String :=
  match get_user_by_employee_id st eid with
  | none => (st, "Error: No user found for " ++ eid ++ ".")
  | some u =>
    if u.is_logged_in then perform_logout st u.id u.name date nowSec "logout"
    else perform_login st u.id u.name date nowSec

/-- The `while current_dt <= end_dt` body of `AuthManager.mark_leave`:
`n` upserts on consecutive dates starting at `d`, each with the leave status,
the notes, `hours = 0` and both times `None`. -/
def leaveLoop (st : SysState) (uid d : Nat) (n : Nat) (lt nts : String) : SysState :=
  match n with
  | 0 => st
  | k + 1 =>
    leaveLoop (upsert_attendance st uid d none none (some 0) (some lt) (some nts))
      uid (d + 1) k lt nts

/-- `AuthManager.mark_leave` over the inclusive day range `[s, e]`. -/
def mark_leave (st : SysState) (uid s e : Nat) (lt nts : String) : SysState × String :=
  if s > e then (st, "Error: Start date must be before end date.")
  else
    (leaveLoop st uid s (e - s + 1) lt nts,
     "Success: Marked " ++ lt ++ " for " ++ toString (e - s + 1) ++ " days.")

/-! ## Scan dispatcher (`gui/user_panel.py`, `update_camera_feed`) -/

/-- Dispatcher state: the system plus `last_scan_time` (initialised to 0 in
`UserPanel.__init__`; `scan_cooldown = 3`). -/
structure ScanState where
  sys : SysState
  last_scan_time : Int
deriving DecidableEq, Repr

/-- One camera frame at time `t` carrying a decode result: the scan logic of
`update_camera_feed`.  Decoding and handling happen only when
`current_time - last_scan_time > scan_cooldown`; the accepted scan updates
`last_scan_time` before the toggle runs.  Returns the toggle's message when
one fired. -/
def scan_step (cooldown : Int) (ss : ScanState) (t : Int) (frame : Option String)
    (date nowSec : Nat) : ScanState × Option String :=
  if t - ss.last_scan_time > cooldown then
    match frame with
    | some eid =>
      let out := handle_qr_login_toggle ss.sys eid date nowSec
      ({ sys := out.1, last_scan_time := t }, some out.2)
    | none => (ss, none)
  else (ss, none)

/-- Fold `scan_step` over a stream of frames `(t, decode, date, nowSec)`. -/
def scan_run (cooldown : Int) (ss : ScanState) :
    List (Int × Option String × Nat × Nat) → ScanState
  | [] => ss
  | (t, f, d, n) :: rest => scan_run cooldown (scan_step cooldown ss t f d n).1 rest

/-! ## The `QR Code Login-02` variant's `LoginManager.authenticate`
(`secure_qr_login.py`): the one manual-credential check in the repository
whose failure result is identical for an unknown id and a wrong password. -/

/-- `LoginManager.authenticate`: `SELECT id, password_hash, salt ... WHERE
employee_id = ?`; returns the user id on success and `None` on any failure. -/
def authenticate02 (verify : String → String → String → Bool) (st : SysState)
    (eid pwd : String) : Option Nat :=
  match get_user_by_employee_id st eid with
  | none => none
  | some u => if verify u.hashed_password u.salt pwd then some u.id else none

/-! ## Spec-side definitions, for refinement comparison only -/

/-- The discard rule exactly as the claim states it: a decode of `id` at
time `t` is discarded when `id` equals the last accepted identifier and
`t - lastAcceptedAt < cooldown`.  (The code compares only times; this
definition follows the spec's words.) -/
def specDiscard (lastId : Option String) (lastAt t cooldown : Int) (id : String) : Bool :=
  (lastId == some id) && (t - lastAt < cooldown)

/-- The fallback exactly as the claim states it: `count(*) + 1` over the
identifiers with the given prefix.  (The code falls back to `1`; this
definition follows the spec's words.) -/
def specFallbackNextNumber (st : SysState) (pfx : String) : Int :=
  (((st.users.map (·.employee_id)).filter (fun e => strIsPrefixOf pfx e)).length : Int) + 1

/-! ## Helper lemmas -/

theorem fmtTime_ne_empty (n : Nat) : fmtTime n ≠ "" := by
  intro h
  have hl := congrArg String.length h
  unfold fmtTime at hl
  rw [String.length_append, String.length_append, String.length_append,
    String.length_append] at hl
  have h1 : (":" : String).length = 1 := rfl
  have h2 : ("" : String).length = 0 := rfl
  rw [h1, h2] at hl
  omega

theorem truthy_fmtTime (n : Nat) : truthy (some (fmtTime n)) = true := by
  simp [truthy, fmtTime_ne_empty]

theorem roundHalfEven_nonneg (num den : Int) (h1 : 0 ≤ num) (h2 : 0 < den) :
    0 ≤ roundHalfEven num den := by
  have hq : 0 ≤ num.ediv den := Int.ediv_nonneg h1 (le_of_lt h2)
  unfold roundHalfEven
  split_ifs <;> omega

theorem hoursWorkedHundredths_nonneg (a b : Int) (h : a ≤ b) :
    0 ≤ hoursWorkedHundredths a b := by
  apply roundHalfEven_nonneg
  · have : (0 : Int) ≤ b - a := by omega
    positivity
  · norm_num

theorem parseTimeHMS_empty : parseTimeHMS "" = none := rfl

theorem updateRecord_key (r : AttendanceRecord) (lt lo : Option String) (hrs : Option Int)
    (stt nts : Option String) : recKey (updateRecord r lt lo hrs stt nts) = recKey r := rfl

theorem updateFirst_map_recKey (p : AttendanceRecord → Bool)
    (f : AttendanceRecord → AttendanceRecord) (hf : ∀ r, recKey (f r) = recKey r) :
    ∀ l : List AttendanceRecord, (updateFirst p f l).map recKey = l.map recKey := by
  intro l
  induction l with
  | nil => rfl
  | cons r rs ih =>
    unfold updateFirst
    by_cases h : p r
    · simp [h, hf]
    · simp [h, ih]

theorem find?_updateFirst_self (p : AttendanceRecord → Bool)
    (f : AttendanceRecord → AttendanceRecord) (hpf : ∀ r, p (f r) = p r) :
    ∀ (l : List AttendanceRecord) (r : AttendanceRecord),
      l.find? p = some r → (updateFirst p f l).find? p = some (f r) := by
  intro l
  induction l with
  | nil => intro r h; simp at h
  | cons a rs ih =>
    intro r h
    by_cases ha : p a
    · rw [List.find?_cons_of_pos _ ha] at h
      cases h
      unfold updateFirst
      rw [if_pos ha]
      exact List.find?_cons_of_pos _ (by rw [hpf]; exact ha)
    · rw [List.find?_cons_of_neg _ (by simpa using ha)] at h
      unfold updateFirst
      rw [if_neg ha]
      rw [List.find?_cons_of_neg _ (by simpa using ha)]
      exact ih r h

theorem find?_updateFirst_other (p q : AttendanceRecord → Bool)
    (f : AttendanceRecord → AttendanceRecord) (hqf : ∀ r, q (f r) = q r)
    (hpq : ∀ r, p r = true → q r = false) :
    ∀ l : List AttendanceRecord, (updateFirst p f l).find? q = l.find? q := by
  intro l
  induction l with
  | nil => rfl
  | cons a rs ih =>
    unfold updateFirst
    by_cases ha : p a
    · rw [if_pos ha]
      have hqa : q a = false := hpq a ha
      rw [List.find?_cons_of_neg _ (by rw [hqf]; simp [hqa]),
        List.find?_cons_of_neg _ (by simp [hqa])]
    · rw [if_neg ha]
      by_cases hqa : q a
      · rw [List.find?_cons_of_pos _ hqa, List.find?_cons_of_pos _ hqa]
      · rw [List.find?_cons_of_neg _ (by simpa using hqa),
          List.find?_cons_of_neg _ (by simpa using hqa)]
        exact ih

theorem keyPred_false_of_ne (uid d uid' d' : Nat) (x : AttendanceRecord)
    (hne : ¬(uid' = uid ∧ d' = d)) (hx : (x.user_id == uid && x.date == d) = true) :
    (x.user_id == uid' && x.date == d') = false := by
  simp only [Bool.and_eq_true, beq_iff_eq] at hx
  obtain ⟨h1, h2⟩ := hx
  rw [h1, h2]
  by_contra hc
  simp only [Bool.not_eq_false, Bool.and_eq_true, beq_iff_eq] at hc
  exact hne ⟨hc.1.symm, hc.2.symm⟩

theorem upsert_attendance_users (st : SysState) (uid d : Nat) (lt lo : Option String)
    (hrs : Option Int) (stt nts : Option String) :
    (upsert_attendance st uid d lt lo hrs stt nts).users = st.users := by
  unfold upsert_attendance
  cases get_attendance_for_date st uid d <;> rfl

theorem upsert_attendance_history (st : SysState) (uid d : Nat) (lt lo : Option String)
    (hrs : Option Int) (stt nts : Option String) :
    (upsert_attendance st uid d lt lo hrs stt nts).history = st.history := by
  unfold upsert_attendance
  cases get_attendance_for_date st uid d <;> rfl

theorem upsert_attendance_events (st : SysState) (uid d : Nat) (lt lo : Option String)
    (hrs : Option Int) (stt nts : Option String) :
    (upsert_attendance st uid d lt lo hrs stt nts).events = st.events := by
  unfold upsert_attendance
  cases get_attendance_for_date st uid d <;> rfl

theorem get_attendance_upsert_same (st : SysState) (uid d : Nat) (lt lo : Option String)
    (hrs : Option Int) (stt nts : Option String) (r : AttendanceRecord)
    (h : get_attendance_for_date st uid d = some r) :
    get_attendance_for_date (upsert_attendance st uid d lt lo hrs stt nts) uid d =
      some (updateRecord r lt lo hrs stt nts) := by
  unfold upsert_attendance
  rw [h]
  unfold get_attendance_for_date at h ⊢
  dsimp only
  exact find?_updateFirst_self (fun x => x.user_id == uid && x.date == d)
    (fun x => updateRecord x lt lo hrs stt nts) (fun x => rfl) _ _ h

theorem get_attendance_upsert_new (st : SysState) (uid d : Nat) (lt lo : Option String)
    (hrs : Option Int) (stt nts : Option String)
    (h : get_attendance_for_date st uid d = none) :
    get_attendance_for_date (upsert_attendance st uid d lt lo hrs stt nts) uid d =
      some ⟨uid, d, lt, lo, hrs.getD 0, stt, nts⟩ := by
  unfold upsert_attendance
  rw [h]
  unfold get_attendance_for_date at h ⊢
  dsimp only
  rw [List.find?_append, h]
  rw [List.find?_cons_of_pos _ (by simp)]
  rfl

theorem get_attendance_upsert_frame (st : SysState) (uid d uid' d' : Nat)
    (lt lo : Option String) (hrs : Option Int) (stt nts : Option String)
    (hne : ¬(uid' = uid ∧ d' = d)) :
    get_attendance_for_date (upsert_attendance st uid d lt lo hrs stt nts) uid' d' =
      get_attendance_for_date st uid' d' := by
  unfold upsert_attendance
  cases hf : get_attendance_for_date st uid d with
  | some r =>
    dsimp only
    unfold get_attendance_for_date
    dsimp only
    exact find?_updateFirst_other (fun x => x.user_id == uid && x.date == d)
      (fun x => x.user_id == uid' && x.date == d')
      (fun x => updateRecord x lt lo hrs stt nts) (fun x => rfl)
      (fun x hx => keyPred_false_of_ne uid d uid' d' x hne hx) st.attendance
  | none =>
    dsimp only
    unfold get_attendance_for_date
    rw [List.find?_append]
    have hfx : (((⟨uid, d, lt, lo, hrs.getD 0, stt, nts⟩ : AttendanceRecord).user_id == uid) &&
        ((⟨uid, d, lt, lo, hrs.getD 0, stt, nts⟩ : AttendanceRecord).date == d)) = true := by
      simp
    have hq := keyPred_false_of_ne uid d uid' d' _ hne hfx
    rw [List.find?_cons_of_neg _ (by simp [hq])]
    rw [List.find?_nil, Option.or_none]

theorem find?_none_key_notin (l : List AttendanceRecord) (uid d : Nat)
    (h : l.find? (fun r => r.user_id == uid && r.date == d) = none) :
    (uid, d) ∉ l.map recKey := by
  intro hmem
  rw [List.mem_map] at hmem
  obtain ⟨r, hr, hk⟩ := hmem
  rw [List.find?_eq_none] at h
  apply h r hr
  have h1 : r.user_id = uid := congrArg Prod.fst hk
  have h2 : r.date = d := congrArg Prod.snd hk
  simp [h1, h2]

theorem upsert_attendance_nodup (st : SysState) (uid d : Nat) (lt lo : Option String)
    (hrs : Option Int) (stt nts : Option String)
    (h : (st.attendance.map recKey).Nodup) :
    ((upsert_attendance st uid d lt lo hrs stt nts).attendance.map recKey).Nodup := by
  unfold upsert_attendance
  cases hf : get_attendance_for_date st uid d with
  | some r =>
    dsimp only
    rw [updateFirst_map_recKey (fun x => x.user_id == uid && x.date == d)
      (fun x => updateRecord x lt lo hrs stt nts) (fun x => rfl)]
    exact h
  | none =>
    dsimp only
    rw [List.map_append, List.nodup_append]
    refine ⟨h, by simp, ?_⟩
    intro a ha hb
    simp only [List.map_cons, List.map_nil, List.mem_cons, List.not_mem_nil, or_false] at hb
    subst hb
    exact find?_none_key_notin st.attendance uid d hf ha

theorem get_attendance_for_date_ext (st st' : SysState) (h : st.attendance = st'.attendance)
    (uid d : Nat) :
    get_attendance_for_date st uid d = get_attendance_for_date st' uid d := by
  unfold get_attendance_for_date
  rw [h]

theorem upsert_attendance_attendance_ext (st st' : SysState) (uid d : Nat)
    (lt lo : Option String) (hrs : Option Int) (stt nts : Option String)
    (h : st.attendance = st'.attendance) :
    (upsert_attendance st uid d lt lo hrs stt nts).attendance =
      (upsert_attendance st' uid d lt lo hrs stt nts).attendance := by
  unfold upsert_attendance
  rw [get_attendance_for_date_ext st st' h uid d]
  cases get_attendance_for_date st' uid d <;> dsimp only <;> rw [h]

theorem perform_login_nodup (st : SysState) (uid : Nat) (uname : String) (d now : Nat)
    (h : (st.attendance.map recKey).Nodup) :
    ((perform_login st uid uname d now).1.attendance.map recKey).Nodup :=
  upsert_attendance_nodup (log_history (update_user_login_status st uid true) uid "login")
    uid d (some (fmtTime now)) none none (some "Present") none h

theorem perform_login_history (st : SysState) (uid : Nat) (uname : String) (d now : Nat) :
    (perform_login st uid uname d now).1.history = st.history ++ [⟨uid, "login"⟩] := by
  unfold perform_login
  dsimp only
  rw [upsert_attendance_history]
  rfl

theorem perform_login_record (st : SysState) (uid : Nat) (uname : String) (d now : Nat) :
    ∃ r', get_attendance_for_date (perform_login st uid uname d now).1 uid d = some r' ∧
      r'.login_time = some (fmtTime now) ∧ r'.status = some "Present" := by
  unfold perform_login
  dsimp only
  set st2 := log_history (update_user_login_status st uid true) uid "login" with hst2
  cases hf : get_attendance_for_date st2 uid d with
  | some r =>
    refine ⟨updateRecord r (some (fmtTime now)) none none (some "Present") none,
      get_attendance_upsert_same st2 uid d _ _ _ _ _ r hf, ?_, ?_⟩
    · simp [updateRecord, truthy, fmtTime_ne_empty]
    · simp [updateRecord, truthy]
  | none =>
    exact ⟨_, get_attendance_upsert_new st2 uid d _ _ _ _ _ hf, rfl, rfl⟩

theorem perform_logout_nodup (st : SysState) (uid : Nat) (uname : String) (d now : Nat)
    (action : String) (h : (st.attendance.map recKey).Nodup) :
    ((perform_logout st uid uname d now action).1.attendance.map recKey).Nodup := by
  unfold perform_logout
  dsimp only
  exact upsert_attendance_nodup _ uid d _ _ _ _ _ h

theorem perform_logout_history (st : SysState) (uid : Nat) (uname : String) (d now : Nat)
    (action : String) :
    (perform_logout st uid uname d now action).1.history = st.history ++ [⟨uid, action⟩] := by
  unfold perform_logout
  dsimp only
  rw [upsert_attendance_history]
  rfl

theorem perform_logout_users (st : SysState) (uid : Nat) (uname : String) (d now : Nat)
    (action : String) :
    (perform_logout st uid uname d now action).1.users =
      (update_user_login_status st uid false).users := by
  unfold perform_logout
  dsimp only
  rw [upsert_attendance_users]
  rfl

theorem perform_logout_attendance_action (st : SysState) (uid : Nat) (uname : String)
    (d now : Nat) (a1 a2 : String) :
    (perform_logout st uid uname d now a1).1.attendance =
      (perform_logout st uid uname d now a2).1.attendance := by
  unfold perform_logout
  dsimp only
  exact upsert_attendance_attendance_ext _ _ uid d _ _ _ _ _ rfl

theorem perform_logout_record (st : SysState) (uid : Nat) (uname : String) (d now : Nat)
    (action : String) (r : AttendanceRecord) (lt : String) (a b : Int)
    (hr : get_attendance_for_date st uid d = some r)
    (hlt : r.login_time = some lt)
    (ha : parseTimeHMS lt = some a)
    (hb : parseTimeHMS (fmtTime now) = some b) :
    get_attendance_for_date (perform_logout st uid uname d now action).1 uid d =
      some (updateRecord r none (some (fmtTime now))
        (some (hoursWorkedHundredths a b)) none none) := by
  have hlt_ne : ¬(lt = "") := by
    intro he
    rw [he, parseTimeHMS_empty] at ha
    exact Option.noConfusion ha
  unfold perform_logout
  dsimp only
  have hr2 : get_attendance_for_date
      (log_history (update_user_login_status st uid false) uid action) uid d = some r := hr
  rw [hr2]
  dsimp only
  rw [hlt]
  dsimp only
  rw [if_neg hlt_ne, ha, hb]
  exact get_attendance_upsert_same _ uid d _ _ _ _ _ r hr2

theorem leaveLoop_nodup (uid : Nat) (lt nts : String) :
    ∀ (n s : Nat) (st : SysState), (st.attendance.map recKey).Nodup →
      ((leaveLoop st uid s n lt nts).attendance.map recKey).Nodup := by
  intro n
  induction n with
  | zero => intro s st h; exact h
  | succ k ih =>
    intro s st h
    unfold leaveLoop
    exact ih (s + 1) _ (upsert_attendance_nodup st uid s _ _ _ _ _ h)

theorem leaveLoop_frame_lt (uid : Nat) (lt nts : String) :
    ∀ (n s : Nat) (st : SysState) (d : Nat), d < s →
      get_attendance_for_date (leaveLoop st uid s n lt nts) uid d =
        get_attendance_for_date st uid d := by
  intro n
  induction n with
  | zero => intro s st d h; rfl
  | succ k ih =>
    intro s st d h
    unfold leaveLoop
    rw [ih (s + 1) _ d (by omega)]
    exact get_attendance_upsert_frame st uid s uid d _ _ _ _ _ (by omega)

theorem leaveLoop_effect (uid : Nat) (lt nts : String) :
    ∀ (n s : Nat) (st : SysState) (d : Nat), s ≤ d → d < s + n →
      get_attendance_for_date (leaveLoop st uid s n lt nts) uid d =
        some (match get_attendance_for_date st uid d with
          | some r => updateRecord r none none (some 0) (some lt) (some nts)
          | none => ⟨uid, d, none, none, 0, some lt, some nts⟩) := by
  intro n
  induction n with
  | zero => intro s st d h1 h2; omega
  | succ k ih =>
    intro s st d h1 h2
    unfold leaveLoop
    rcases Nat.eq_or_lt_of_le h1 with he | hlt
    · subst he
      rw [leaveLoop_frame_lt uid lt nts k (s + 1) _ s (by omega)]
      cases hf : get_attendance_for_date st uid s with
      | some r => rw [get_attendance_upsert_same st uid s _ _ _ _ _ r hf]
      | none =>
        rw [get_attendance_upsert_new st uid s _ _ _ _ _ hf]
        rfl
    · rw [ih (s + 1) _ d (by omega) (by omega)]
      rw [get_attendance_upsert_frame st uid s uid d _ _ _ _ _ (by omega)]

theorem force_logout_nodup (st : SysState) (uid d now : Nat)
    (h : (st.attendance.map recKey).Nodup) :
    ((force_logout st uid d now).1.attendance.map recKey).Nodup := by
  unfold force_logout
  split
  · exact h
  · split
    · exact h
    · exact perform_logout_nodup _ _ _ _ _ _ h

theorem handle_qr_login_toggle_nodup (st : SysState) (eid : String) (d now : Nat)
    (h : (st.attendance.map recKey).Nodup) :
    ((handle_qr_login_toggle st eid d now).1.attendance.map recKey).Nodup := by
  unfold handle_qr_login_toggle
  split
  · exact h
  · split
    · exact perform_logout_nodup _ _ _ _ _ _ h
    · exact perform_login_nodup _ _ _ _ _ h

theorem handle_manual_login_nodup (verify : String → String → String → Bool) (st : SysState)
    (eid pwd : String) (d now : Nat) (h : (st.attendance.map recKey).Nodup) :
    ((handle_manual_login verify st eid pwd d now).1.attendance.map recKey).Nodup := by
  unfold handle_manual_login
  split
  · exact h
  · split
    · split
      · exact h
      · exact perform_login_nodup _ _ _ _ _ h
    · exact h

theorem handle_manual_logout_nodup (verify : String → String → String → Bool) (st : SysState)
    (eid pwd : String) (d now : Nat) (h : (st.attendance.map recKey).Nodup) :
    ((handle_manual_logout verify st eid pwd d now).1.attendance.map recKey).Nodup := by
  unfold handle_manual_logout
  split
  · exact h
  · split
    · exact h
    · split
      · exact h
      · exact perform_logout_nodup _ _ _ _ _ _ h

theorem mark_leave_nodup (st : SysState) (uid s e : Nat) (lt nts : String)
    (h : (st.attendance.map recKey).Nodup) :
    ((mark_leave st uid s e lt nts).1.attendance.map recKey).Nodup := by
  unfold mark_leave
  split
  · exact h
  · exact leaveLoop_nodup uid lt nts _ _ st h

/-! ## Fixtures used by witnesses and counterexamples -/

/-- A registered, logged-out user. -/
def annUser : User := ⟨1, "ALLY001", "Ann", "h1", "s1", false⟩

/-- A second registered, logged-out user. -/
def bobUser : User := ⟨2, "BOB001", "Bob", "h2", "s2", false⟩

/-- Two users, empty ledger, a `Holiday` calendar event on day 5. -/
def baseState : SysState := ⟨[annUser, bobUser], [], [], [⟨5, "Founding Day", "Holiday"⟩]⟩

/-- A password checker that accepts only Ann's stored hash with password
`"pw"`. -/
def verifyFix : String → String → String → Bool :=
  fun h s p => h == "h1" && s == "s1" && p == "pw"

/-! ## Claims -/

/-- C1: for every state whose attendance ledger contains no two records with
the same `(user_id, date)` pair, the ledger still contains no duplicate pair
after any operation that writes attendance: a raw `upsert_attendance` (the
write path of admin corrections), `_perform_login`, `_perform_logout`,
`force_logout`, `mark_leave`, the QR toggle and both manual handlers. -/
theorem C1_ledger_unique_key (st : SysState) (h : (st.attendance.map recKey).Nodup) :
    ∀ (uid d e now : Nat) (uname eid pwd ltype nts action : String)
      (lt lo : Option String) (hrs : Option Int) (stt nts' : Option String)
      (verify : String → String → String → Bool),
      ((upsert_attendance st uid d lt lo hrs stt nts').attendance.map recKey).Nodup ∧
      ((perform_login st uid uname d now).1.attendance.map recKey).Nodup ∧
      ((perform_logout st uid uname d now action).1.attendance.map recKey).Nodup ∧
      ((force_logout st uid d now).1.attendance.map recKey).Nodup ∧
      ((mark_leave st uid d e ltype nts).1.attendance.map recKey).Nodup ∧
      ((handle_qr_login_toggle st eid d now).1.attendance.map recKey).Nodup ∧
      ((handle_manual_login verify st eid pwd d now).1.attendance.map recKey).Nodup ∧
      ((handle_manual_logout verify st eid pwd d now).1.attendance.map recKey).Nodup := by
  intro uid d e now uname eid pwd ltype nts action lt lo hrs stt nts' verify
  exact ⟨upsert_attendance_nodup st uid d lt lo hrs stt nts' h,
    perform_login_nodup st uid uname d now h,
    perform_logout_nodup st uid uname d now action h,
    force_logout_nodup st uid d now h,
    mark_leave_nodup st uid d e ltype nts h,
    handle_qr_login_toggle_nodup st eid d now h,
    handle_manual_login_nodup verify st eid pwd d now h,
    handle_manual_logout_nodup verify st eid pwd d now h⟩

/-- Witness for C1 at a concrete two-record ledger. -/
theorem C1_ledger_unique_key_witness :
    ((upsert_attendance
        ⟨[annUser, bobUser], [],
         [⟨1, 3, some "09:00:00", none, 0, some "Present", none⟩,
          ⟨2, 3, none, none, 0, some "Leave", none⟩], []⟩
        1 3 none (some "17:00:00") (some 800) none none).attendance.map recKey).Nodup :=
  (C1_ledger_unique_key
    ⟨[annUser, bobUser], [],
     [⟨1, 3, some "09:00:00", none, 0, some "Present", none⟩,
      ⟨2, 3, none, none, 0, some "Leave", none⟩], []⟩
    (by decide) 1 3 4 61200 "Ann" "ALLY001" "pw" "Leave" "" "logout"
    none (some "17:00:00") (some 800) none none verifyFix).1

/-- C6: `force_logout` on a known, already-logged-out user returns the
informational `Info:` result (not an `Error:`), leaves the whole store —
ledger and history included — unchanged; on a logged-in user it equals the
logout path tagged `force_logout`, which appends exactly the one
`force_logout` history event and produces the same attendance table and
user table as the plain `logout`-tagged path. -/
theorem C6_force_logout_semantics (st : SysState) (uid d now : Nat) (u : User)
    (hu : get_user_by_id st uid = some u) :
    (u.is_logged_in = false →
      force_logout st uid d now = (st, "Info: User is already logged out.")) ∧
    (u.is_logged_in = true →
      force_logout st uid d now = perform_logout st uid u.name d now "force_logout" ∧
      (force_logout st uid d now).1.history = st.history ++ [⟨uid, "force_logout"⟩] ∧
      (force_logout st uid d now).1.attendance =
        (perform_logout st uid u.name d now "logout").1.attendance ∧
      (force_logout st uid d now).1.users =
        (perform_logout st uid u.name d now "logout").1.users) := by
  constructor
  · intro hl
    unfold force_logout
    rw [hu]
    dsimp only
    rw [hl]
    rfl
  · intro hl
    have he : force_logout st uid d now = perform_logout st uid u.name d now "force_logout" := by
      unfold force_logout
      rw [hu]
      dsimp only
      rw [hl]
      rfl
    refine ⟨he, ?_, ?_, ?_⟩
    · rw [he, perform_logout_history]
    · rw [he]
      exact perform_logout_attendance_action st uid u.name d now "force_logout" "logout"
    · rw [he, perform_logout_users, perform_logout_users]

/-- Witness for C6: Bob is logged out in `baseState`, so `force_logout`
returns the informational result and changes nothing. -/
theorem C6_force_logout_semantics_witness :
    force_logout baseState 2 5 61200 = (baseState, "Info: User is already logged out.") :=
  (C6_force_logout_semantics baseState 2 5 61200 bobUser (by decide)).1 (by decide)

/-- C10: updating an existing `(user_id, date)` row through
`upsert_attendance` leaves a column unchanged whenever its argument is
`None` — and, for `login_time`, `logout_time` and `status`, also whenever it
is the empty (falsy) string — so recorded times can never be cleared back to
`NULL`; consequently `mark_leave` over a day that already has recorded times
changes the status, zeroes the hours and sets the notes while the old
`login_time` and `logout_time` stay in the row. -/
theorem C10_upsert_frame_effect :
    (∀ (st : SysState) (uid d : Nat) (lt lo : Option String) (hrs : Option Int)
      (stt nts : Option String) (r : AttendanceRecord),
      get_attendance_for_date st uid d = some r →
      ∃ r', get_attendance_for_date (upsert_attendance st uid d lt lo hrs stt nts) uid d =
          some r' ∧
        r'.user_id = r.user_id ∧ r'.date = r.date ∧
        ((lt = none ∨ lt = some "") → r'.login_time = r.login_time) ∧
        ((lo = none ∨ lo = some "") → r'.logout_time = r.logout_time) ∧
        ((stt = none ∨ stt = some "") → r'.status = r.status) ∧
        (hrs = none → r'.hours_worked = r.hours_worked) ∧
        (nts = none → r'.notes = r.notes)) ∧
    (∀ (st : SysState) (uid s e d : Nat) (ltype nts : String) (r : AttendanceRecord),
      s ≤ d → d ≤ e → ltype ≠ "" →
      get_attendance_for_date st uid d = some r →
      ∃ r', get_attendance_for_date (mark_leave st uid s e ltype nts).1 uid d = some r' ∧
        r'.login_time = r.login_time ∧ r'.logout_time = r.logout_time ∧
        r'.status = some ltype ∧ r'.hours_worked = 0 ∧ r'.notes = some nts) := by
  constructor
  · intro st uid d lt lo hrs stt nts r hr
    refine ⟨updateRecord r lt lo hrs stt nts,
      get_attendance_upsert_same st uid d lt lo hrs stt nts r hr, rfl, rfl, ?_, ?_, ?_, ?_, ?_⟩
    · rintro (h | h) <;> subst h <;> simp [updateRecord, truthy]
    · rintro (h | h) <;> subst h <;> simp [updateRecord, truthy]
    · rintro (h | h) <;> subst h <;> simp [updateRecord, truthy]
    · intro h; subst h; rfl
    · intro h; subst h; rfl
  · intro st uid s e d ltype nts r h1 h2 hne hr
    unfold mark_leave
    rw [if_neg (by omega)]
    dsimp only
    rw [leaveLoop_effect uid ltype nts (e - s + 1) s st d h1 (by omega), hr]
    refine ⟨updateRecord r none none (some 0) (some ltype) (some nts), rfl, ?_, ?_, ?_, rfl, rfl⟩
    · rfl
    · rfl
    · simp [updateRecord, truthy, hne]

/-- Witness for C10: a day-3 record with recorded times keeps them through a
leave upsert and through `mark_leave` over days 2–4. -/
theorem C10_upsert_frame_effect_witness :
    (∃ r', get_attendance_for_date
        (upsert_attendance
          ⟨[annUser], [], [⟨1, 3, some "09:00:00", some "17:00:00", 800, some "Present", none⟩], []⟩
          1 3 none (some "") none (some "Leave") none) 1 3 = some r' ∧
      r'.user_id = 1 ∧ r'.date = 3 ∧
      ((none : Option String) = none ∨ (none : Option String) = some "" →
        r'.login_time = some "09:00:00") ∧
      (some "" = none ∨ some "" = some "" → r'.logout_time = some "17:00:00") ∧
      (some "Leave" = none ∨ some "Leave" = some "" → r'.status = some "Present") ∧
      ((none : Option Int) = none → r'.hours_worked = 800) ∧
      ((none : Option String) = none → r'.notes = none)) ∧
    (∃ r', get_attendance_for_date
        (mark_leave
          ⟨[annUser], [], [⟨1, 3, some "09:00:00", some "17:00:00", 800, some "Present", none⟩], []⟩
          1 2 4 "Leave" "trip").1 1 3 = some r' ∧
      r'.login_time = some "09:00:00" ∧ r'.logout_time = some "17:00:00" ∧
      r'.status = some "Leave" ∧ r'.hours_worked = 0 ∧ r'.notes = some "trip") :=
  ⟨C10_upsert_frame_effect.1
      ⟨[annUser], [], [⟨1, 3, some "09:00:00", some "17:00:00", 800, some "Present", none⟩], []⟩
      1 3 none (some "") none (some "Leave") none
      ⟨1, 3, some "09:00:00", some "17:00:00", 800, some "Present", none⟩ (by decide),
   C10_upsert_frame_effect.2
      ⟨[annUser], [], [⟨1, 3, some "09:00:00", some "17:00:00", 800, some "Present", none⟩], []⟩
      1 2 4 3 "Leave" "trip"
      ⟨1, 3, some "09:00:00", some "17:00:00", 800, some "Present", none⟩
      (by decide) (by decide) (by decide) (by decide)⟩

/-- C7: `generate_employee_id` returns the prefix followed by the numeric
suffix of the lexicographically greatest matching identifier, incremented and
zero-padded to 3 digits (`f"{n:03d}"`); with no matching identifier it
returns the prefix followed by `001`.  The two scenario instances
(`ALLY009 → ALLY010`, empty directory `→ ALLY001`) are included. -/
theorem C7_next_employee_id :
    (∀ (st : SysState) (pfx s : String) (n : Int),
      maxLex ((st.users.map (·.employee_id)).filter (fun e => strIsPrefixOf pfx e)) =
        some (pfx ++ s) →
      pyReplaceEmpty (pfx ++ s) pfx = s →
      pyIntOfString s = some n →
      generate_employee_id st pfx = pfx ++ pyFormat03d (n + 1)) ∧
    (∀ (st : SysState) (pfx : String),
      (st.users.map (·.employee_id)).filter (fun e => strIsPrefixOf pfx e) = [] →
      generate_employee_id st pfx = pfx ++ "001") ∧
    generate_employee_id ⟨[⟨1, "ALLY009", "Max", "h", "s", false⟩], [], [], []⟩ "ALLY" =
      "ALLY010" ∧
    generate_employee_id ⟨[], [], [], []⟩ "ALLY" = "ALLY001" := by
  refine ⟨?_, ?_, by decide, by decide⟩
  · intro st pfx s n h1 h2 h3
    unfold generate_employee_id get_next_employee_id_number
    dsimp only
    rw [h1]
    dsimp only
    rw [h2, h3]
  · intro st pfx hfil
    unfold generate_employee_id get_next_employee_id_number
    dsimp only
    rw [hfil]
    dsimp only [maxLex]
    have h001 : pyFormat03d 1 = "001" := by decide
    rw [h001]

/-- Witness for C7 at the greatest identifier `ALLY009`. -/
theorem C7_next_employee_id_witness :
    generate_employee_id ⟨[⟨1, "ALLY009", "Max", "h", "s", false⟩, ⟨2, "BITS01", "Z", "h", "s", false⟩],
        [], [], []⟩ "ALLY" = "ALLY" ++ pyFormat03d (9 + 1) :=
  C7_next_employee_id.1
    ⟨[⟨1, "ALLY009", "Max", "h", "s", false⟩, ⟨2, "BITS01", "Z", "h", "s", false⟩], [], [], []⟩
    "ALLY" "009" 9 (by decide) (by decide) (by decide)

/-- C8 counterexample: with identifiers `ALLY001`, `ALLY002` and the
lexicographically greatest `ALLYX` (unparsable suffix `X`), the code's
fallback yields `ALLY001`, whereas the claimed `count(*) + 1` fallback would
yield `ALLY004`. -/
theorem C8_fallback_counterexample :
    generate_employee_id
        ⟨[⟨1, "ALLY001", "A", "h", "s", false⟩, ⟨2, "ALLY002", "B", "h", "s", false⟩,
          ⟨3, "ALLYX", "C", "h", "s", false⟩], [], [], []⟩ "ALLY" = "ALLY001" ∧
    specFallbackNextNumber
        ⟨[⟨1, "ALLY001", "A", "h", "s", false⟩, ⟨2, "ALLY002", "B", "h", "s", false⟩,
          ⟨3, "ALLYX", "C", "h", "s", false⟩], [], [], []⟩ "ALLY" = 4 ∧
    "ALLY" ++ pyFormat03d 4 = "ALLY004" ∧
    ("ALLY001" : String) ≠ "ALLY004" := by
  refine ⟨by decide, by decide, by decide, by decide⟩

/-- C8 amended: when the suffix of the greatest matching identifier does not
parse as an integer, `get_next_employee_id_number` returns normally (it is a
total function) with the fallback value `1` — not `count(*) + 1` — so
`generate_employee_id` yields the prefix followed by `001`. -/
theorem C8_fallback_is_one (st : SysState) (pfx : String) (last : String)
    (h1 : maxLex ((st.users.map (·.employee_id)).filter (fun e => strIsPrefixOf pfx e)) =
      some last)
    (h2 : pyIntOfString (pyReplaceEmpty last pfx) = none) :
    get_next_employee_id_number st pfx = 1 ∧
    generate_employee_id st pfx = pfx ++ "001" := by
  have hnum : get_next_employee_id_number st pfx = 1 := by
    unfold get_next_employee_id_number
    dsimp only
    rw [h1]
    dsimp only
    rw [h2]
  refine ⟨hnum, ?_⟩
  unfold generate_employee_id
  rw [hnum]
  have h001 : pyFormat03d 1 = "001" := by decide
  rw [h001]

/-- Witness for the amended C8 at the unparsable greatest identifier
`ALLYX`. -/
theorem C8_fallback_is_one_witness :
    get_next_employee_id_number
        ⟨[⟨1, "ALLY001", "A", "h", "s", false⟩, ⟨2, "ALLY002", "B", "h", "s", false⟩,
          ⟨3, "ALLYX", "C", "h", "s", false⟩], [], [], []⟩ "ALLY" = 1 ∧
    generate_employee_id
        ⟨[⟨1, "ALLY001", "A", "h", "s", false⟩, ⟨2, "ALLY002", "B", "h", "s", false⟩,
          ⟨3, "ALLYX", "C", "h", "s", false⟩], [], [], []⟩ "ALLY" = "ALLY" ++ "001" :=
  C8_fallback_is_one
    ⟨[⟨1, "ALLY001", "A", "h", "s", false⟩, ⟨2, "ALLY002", "B", "h", "s", false⟩,
      ⟨3, "ALLYX", "C", "h", "s", false⟩], [], [], []⟩ "ALLY" "ALLYX" (by decide) (by decide)

/-- C2 counterexample: a logout accepted at `09:00:00` on a record whose
`login_time` is `10:00:00` stores `hours_worked = -1.00` — there is no
`max(0, ...)` clamp — and a `logout_time` earlier than `login_time`,
refuting the claimed formula and the unconditional `hours_worked ≥ 0`. -/
theorem C2_negative_hours_counterexample :
    ∃ r', get_attendance_for_date
        (perform_logout
          ⟨[annUser], [], [⟨1, 5, some "10:00:00", none, 0, some "Present", none⟩], []⟩
          1 "Ann" 5 32400 "logout").1 1 5 = some r' ∧
      r'.hours_worked = -100 ∧ r'.hours_worked < 0 ∧
      r'.login_time = some "10:00:00" ∧ r'.logout_time = some "09:00:00" := by
  exact ⟨⟨1, 5, some "10:00:00", some "09:00:00", -100, some "Present", none⟩,
    by decide, by decide, by decide, by decide, by decide⟩

/-- C2 amended: an accepted logout on a record whose `login_time` parses
stores `logout_time = now` and `hours_worked = round((logout − login)/3600,
2)` with NO clamping at 0; `hours_worked ≥ 0` holds exactly when the
logout's time of day is not earlier than the parsed login time, which the
code does not enforce (so a backwards clock stores negative hours). -/
theorem C2_hours_formula (st : SysState) (uid : Nat) (uname : String) (d now : Nat)
    (action : String) (r : AttendanceRecord) (lt : String) (a b : Int)
    (hr : get_attendance_for_date st uid d = some r)
    (hlt : r.login_time = some lt)
    (ha : parseTimeHMS lt = some a)
    (hb : parseTimeHMS (fmtTime now) = some b) :
    ∃ r', get_attendance_for_date (perform_logout st uid uname d now action).1 uid d =
        some r' ∧
      r'.logout_time = some (fmtTime now) ∧
      r'.login_time = some lt ∧
      r'.hours_worked = hoursWorkedHundredths a b ∧
      (a ≤ b → 0 ≤ r'.hours_worked) := by
  refine ⟨updateRecord r none (some (fmtTime now)) (some (hoursWorkedHundredths a b)) none none,
    perform_logout_record st uid uname d now action r lt a b hr hlt ha hb, ?_, ?_, rfl, ?_⟩
  · simp [updateRecord, truthy, fmtTime_ne_empty]
  · simp [updateRecord, truthy, hlt]
  · intro hab
    exact hoursWorkedHundredths_nonneg a b hab

/-- Witness for the amended C2: login `09:00:00`, logout `17:30:00`,
stored hours `8.50`. -/
theorem C2_hours_formula_witness :
    ∃ r', get_attendance_for_date
        (perform_logout
          ⟨[annUser], [], [⟨1, 5, some "09:00:00", none, 0, some "Present", none⟩], []⟩
          1 "Ann" 5 63000 "logout").1 1 5 = some r' ∧
      r'.logout_time = some (fmtTime 63000) ∧
      r'.login_time = some "09:00:00" ∧
      r'.hours_worked = hoursWorkedHundredths 32400 63000 ∧
      ((32400 : Int) ≤ 63000 → 0 ≤ r'.hours_worked) :=
  C2_hours_formula
    ⟨[annUser], [], [⟨1, 5, some "09:00:00", none, 0, some "Present", none⟩], []⟩
    1 "Ann" 5 63000 "logout" ⟨1, 5, some "09:00:00", none, 0, some "Present", none⟩
    "09:00:00" 32400 63000 (by decide) (by decide) (by decide) (by decide)

/-- C3 counterexample: after badge `ALLY001` is accepted at `t = 10`, a scan
of the DIFFERENT badge `BOB001` at `t = 11` (cooldown 3) is discarded by the
code — no state change, no toggle — although the claimed rule (discard
exactly when the identifier equals the last accepted one and the gap is
under the cooldown) requires a toggle here; the suppression is observable,
since the toggle would have appended a history event. -/
theorem C3_dispatcher_counterexample :
    (let ss1 := (scan_step 3 ⟨baseState, 0⟩ 10 (some "ALLY001") 5 32400).1
     scan_step 3 ss1 11 (some "BOB001") 5 32500 = (ss1, none) ∧
     specDiscard (some "ALLY001") 10 11 3 "BOB001" = false ∧
     (handle_qr_login_toggle ss1.sys "BOB001" 5 32500).1.history ≠ ss1.sys.history) := by
  decide

/-- C3 amended: the dispatcher never compares identifiers: ANY decode while
`t − last_scan_time ≤ cooldown` is discarded, and any decode outside the
window fires the toggle and resets `last_scan_time` to `t`.  The scenario
survives in this form: with cooldown 3 and the badge scanned at
`t = 100, 101, 104`, the second scan is dropped and the run records exactly
one login followed by one logout. -/
theorem C3_dispatcher_cooldown :
    (∀ (cooldown : Int) (ss : ScanState) (t : Int) (id : String) (d n : Nat),
      t - ss.last_scan_time ≤ cooldown → scan_step cooldown ss t (some id) d n = (ss, none)) ∧
    (∀ (cooldown : Int) (ss : ScanState) (t : Int) (id : String) (d n : Nat),
      t - ss.last_scan_time > cooldown →
      (scan_step cooldown ss t (some id) d n).1.sys =
        (handle_qr_login_toggle ss.sys id d n).1 ∧
      (scan_step cooldown ss t (some id) d n).1.last_scan_time = t) ∧
    (scan_run 3 ⟨baseState, 0⟩
        [(100, some "ALLY001", 5, 32400), (101, some "ALLY001", 5, 32500),
         (104, some "ALLY001", 5, 34200)]).sys.history =
      [⟨1, "login"⟩, ⟨1, "logout"⟩] ∧
    (scan_run 3 ⟨baseState, 0⟩
        [(100, some "ALLY001", 5, 32400), (101, some "ALLY001", 5, 32500)]).sys.history =
      [⟨1, "login"⟩] := by
  refine ⟨?_, ?_, by decide, by decide⟩
  · intro cooldown ss t id d n h
    unfold scan_step
    rw [if_neg (by omega)]
  · intro cooldown ss t id d n h
    unfold scan_step
    rw [if_pos (by omega)]
    exact ⟨rfl, rfl⟩

/-- Witness for the amended C3: a same-identifier bounce one second after an
accepted scan is suppressed. -/
theorem C3_dispatcher_cooldown_witness :
    scan_step 3 ⟨baseState, 10⟩ 11 (some "ALLY001") 5 32500 = (⟨baseState, 10⟩, none) :=
  C3_dispatcher_cooldown.1 3 ⟨baseState, 10⟩ 11 "ALLY001" 5 32500 (by decide)

/-- C4 counterexample: `mark_leave` over days 10–12 OVERWRITES the
pre-existing `Holiday` record on day 11 with the `Leave` status — the
claimed Holiday precedence does not exist in the code. -/
theorem C4_holiday_overwritten_counterexample :
    ∃ r', get_attendance_for_date
        (mark_leave ⟨[annUser], [], [⟨1, 11, none, none, 0, some "Holiday", none⟩], []⟩
          1 10 12 "Leave" "").1 1 11 = some r' ∧
      r'.status = some "Leave" ∧ r'.status ≠ some "Holiday" := by
  exact ⟨⟨1, 11, none, none, 0, some "Leave", some ""⟩, by decide, by decide, by decide⟩

/-- C4 amended: for `start ≤ end` and a non-empty leave type, `mark_leave`
reports success for `end − start + 1` days and upserts EVERY date in the
inclusive range with the given status, zeroed hours and the notes — a
pre-existing `Holiday` status is overwritten like any other; on an empty
ledger the 3-day scenario range creates exactly three records. -/
theorem C4_mark_leave_range (st : SysState) (uid s e : Nat) (ltype nts : String)
    (h1 : s ≤ e) (h2 : ltype ≠ "") :
    ((mark_leave st uid s e ltype nts).2 =
      "Success: Marked " ++ ltype ++ " for " ++ toString (e - s + 1) ++ " days.") ∧
    (∀ d, s ≤ d → d ≤ e →
      ∃ r', get_attendance_for_date (mark_leave st uid s e ltype nts).1 uid d = some r' ∧
        r'.status = some ltype ∧ r'.hours_worked = 0 ∧ r'.notes = some nts) ∧
    (mark_leave ⟨[annUser], [], [], []⟩ 1 10 12 "Leave" "").1.attendance.length = 3 := by
  refine ⟨?_, ?_, by decide⟩
  · unfold mark_leave
    rw [if_neg (by omega)]
  · intro d hd1 hd2
    unfold mark_leave
    rw [if_neg (by omega)]
    dsimp only
    rw [leaveLoop_effect uid ltype nts (e - s + 1) s st d hd1 (by omega)]
    cases hf : get_attendance_for_date st uid d with
    | some r =>
      refine ⟨updateRecord r none none (some 0) (some ltype) (some nts), rfl, ?_, rfl, rfl⟩
      simp [updateRecord, truthy, h2]
    | none => exact ⟨⟨uid, d, none, none, 0, some ltype, some nts⟩, rfl, rfl, rfl, rfl⟩

/-- Witness for the amended C4 at the middle day of a 3-day range. -/
theorem C4_mark_leave_range_witness :
    ∃ r', get_attendance_for_date
        (mark_leave ⟨[annUser], [], [⟨1, 11, none, none, 0, some "Holiday", none⟩], []⟩
          1 10 12 "Leave" "trip").1 1 11 = some r' ∧
      r'.status = some "Leave" ∧ r'.hours_worked = 0 ∧ r'.notes = some "trip" :=
  (C4_mark_leave_range ⟨[annUser], [], [⟨1, 11, none, none, 0, some "Holiday", none⟩], []⟩
    1 10 12 "Leave" "trip" (by decide) (by decide)).2.1 11 (by decide) (by decide)

/-- C5 counterexample: day 5 carries a `Holiday` calendar event in
`baseState`, yet the accepted login stores `status = Present` — the login
path never consults the calendar. -/
theorem C5_holiday_ignored_counterexample :
    (baseState.events.filter (fun ev => ev.date == 5 && ev.category == "Holiday")).length = 1 ∧
    ∃ r', get_attendance_for_date (perform_login baseState 1 "Ann" 5 32400).1 1 5 = some r' ∧
      r'.status = some "Present" ∧ r'.status ≠ some "Holiday" := by
  exact ⟨by decide, ⟨1, 5, some "09:00:00", none, 0, some "Present", none⟩,
    by decide, by decide, by decide⟩

/-- C5 amended: every accepted login appends exactly one `login` history
event, and creates/updates today's record with `login_time` set to the
formatted current time and `status = Present` UNCONDITIONALLY — the calendar
(and any `Holiday` event on the date) never enters this login path. -/
theorem C5_login_always_present (st : SysState) (uid : Nat) (uname : String) (d now : Nat) :
    (perform_login st uid uname d now).1.history = st.history ++ [⟨uid, "login"⟩] ∧
    ∃ r', get_attendance_for_date (perform_login st uid uname d now).1 uid d = some r' ∧
      r'.login_time = some (fmtTime now) ∧ r'.status = some "Present" :=
  ⟨perform_login_history st uid uname d now, perform_login_record st uid uname d now⟩

/-- C9 counterexample: `handle_manual_login` answers an unknown employee id
with `Error: Employee ID not found.` and a wrong password for a known id
with `Error: Invalid password.` — two distinct results, revealing which half
of the credential failed. -/
theorem C9_distinguishable_errors_counterexample :
    (handle_manual_login verifyFix baseState "NOPE" "pw" 5 32400).2 =
      "Error: Employee ID not found." ∧
    (handle_manual_login verifyFix baseState "ALLY001" "wrong" 5 32400).2 =
      "Error: Invalid password." ∧
    ("Error: Employee ID not found." : String) ≠ "Error: Invalid password." := by
  exact ⟨by decide, by decide, by decide⟩

/-- C9 amended: the SecureQRLoginSystem manual login reveals which half of
the credential failed (distinct `Employee ID not found` / `Invalid
password` results, state unchanged in both); only the `QR Code Login-02`
variant's `authenticate` is indistinguishable, returning `None` both for an
unknown id and for a wrong password. -/
theorem C9_auth_failure_results (verify : String → String → String → Bool) (st : SysState)
    (eid pwd : String) (d now : Nat) :
    (get_user_by_employee_id st eid = none →
      handle_manual_login verify st eid pwd d now = (st, "Error: Employee ID not found.") ∧
      authenticate02 verify st eid pwd = none) ∧
    (∀ u, get_user_by_employee_id st eid = some u →
      verify u.hashed_password u.salt pwd = false →
      handle_manual_login verify st eid pwd d now = (st, "Error: Invalid password.") ∧
      authenticate02 verify st eid pwd = none) := by
  constructor
  · intro h
    unfold handle_manual_login authenticate02
    rw [h]
    exact ⟨rfl, rfl⟩
  · intro u hu hv
    unfold handle_manual_login authenticate02
    rw [hu]
    dsimp only
    rw [hv]
    exact ⟨rfl, rfl⟩

/-- Witness for the amended C9: Ann with a wrong password. -/
theorem C9_auth_failure_results_witness :
    handle_manual_login verifyFix baseState "ALLY001" "wrong" 5 32400 =
      (baseState, "Error: Invalid password.") ∧
    authenticate02 verifyFix baseState "ALLY001" "wrong" = none :=
  (C9_auth_failure_results verifyFix baseState "ALLY001" "wrong" 5 32400).2
    annUser (by decide) (by decide)
